import Mathlib

/-!
Verification development for the transport framing and exchange engine of
the `eppy` EPP client (`src/eppy/client.py`).

The embedding models the byte-level behaviour of `EppClient`:

* Bytes are `List Nat` (each entry a byte value).
* The incoming side of the socket is a list of chunks: one underlying
  `recv`/`read` call returns at most the requested count, and at most one
  chunk (this is the standard TCP/TLS delivery model the code runs on; a
  zero-byte return means the peer closed the stream).
* The outgoing side records one entry per underlying `sendall`/`write`
  call, so the number of write calls and the bytes of each are observable.
* Write failures (reset connections and the like) are injected through
  `writesBeforeFail`: the write call made when the count of completed
  write calls equals the given number raises.
* `EppResponse.from_xml` (in the external `doc` module, not part of the
  transport core) is a parameter `fromXml` of the operations that parse.
-/

namespace Eppy

abbrev Bytes := List Nat

/-- Big-endian 4-byte encoding of a natural number, as produced by
`struct.pack(">I", n)` (client.py line 90). -/
def pack32 (n : Nat) : Bytes :=
  [n / 2 ^ 24 % 256, n / 2 ^ 16 % 256, n / 2 ^ 8 % 256, n % 256]

/-- Big-endian decoding, as `struct.unpack(">I", b)[0]` (client.py line 77). -/
def unpack32 (b : Bytes) : Nat :=
  b.foldl (fun acc x => acc * 256 + x) 0

/-- Modelled from the spec: the external document parser
(`EppResponse.from_xml` of the `doc` module, which is not under the
transport core) yields a response object exposing a boolean success
indicator (`parse_response(bytes) -> ResponseObject`, spec section 6). -/
structure EppResponse where
  raw : Bytes
  success : Bool
deriving DecidableEq, Repr

/-- Modelled from the spec: a document handed to the engine is either an
already-rendered byte string, or an external document object whose
rendering (`str(doc)` / `serialize(document) -> bytes`, spec section 6)
is recorded in the `obj` constructor.  A document object is not itself a
Python byte string. -/
inductive Doc where
  | bytes (b : Bytes)
  | obj (render : Bytes)
deriving DecidableEq, Repr

/-- Rendering a document to its byte payload: `str(doc)`.  For a byte
string this is the identity; for a document object it is the external
serializer's output. -/
def Doc.str : Doc → Bytes
  | .bytes b => b
  | .obj r => r

/-- Whether the value is an actual byte string (`str` in Python 2), the
only kind of element that `''.join` accepts. -/
def Doc.isStr : Doc → Bool
  | .bytes _ => true
  | .obj _ => false

/-- Errors raised by the engine.  `socketError` stands for the platform's
native I/O error (writing to a closed or failing socket, reading from a
closed file descriptor); `structPackError` for `struct.unpack` on a buffer
that is not exactly 4 bytes; `recvArgError` for `recv` called with a
negative size (a header whose value is below 4); `typeMismatch` for
`''.join` over a list containing a non-string; `loginFailed r` for
`EppLoginError(r)`. -/
inductive Err where
  | noSizeHeader
  | noData (expected : Nat)
  | structPackError
  | recvArgError
  | socketError
  | typeMismatch
  | loginFailed (r : EppResponse)
deriving DecidableEq, Repr

/-- State of one `EppClient`.

* `instream`: the chunks the peer delivers on the current connection.
* `outstream`: bytes handed to the socket, one entry per write call.
* `writesBeforeFail`: `some k` makes the write call issued when
  `outstream.length = k` raise (injected transport failure).
* `sock`: whether `self.sock` is set (truthy) — the client's stream
  attribute.
* `closed`: whether the retained raw socket handle `self._sock` has been
  closed.
* `greeting`: `self.greeting`. -/
structure ClientState where
  instream : List Bytes
  outstream : List Bytes
  writesBeforeFail : Option Nat
  sock : Bool
  closed : Bool
  greeting : Option EppResponse
deriving DecidableEq, Repr

/-- One underlying `recv(n)` / SSL `read(n)` call on the chunked incoming
stream: returns at most `n` bytes and at most one chunk; an exhausted
stream returns zero bytes (peer closed); `recv(0)` returns zero bytes
immediately. -/
def recv (n : Nat) (chunks : List Bytes) : Bytes × List Bytes :=
  match chunks with
  | [] => ([], [])
  | c :: cs =>
      if n = 0 then ([], c :: cs)
      else (c.take n, if c.drop n = [] then cs else c.drop n :: cs)

/-- The bytes `EppClient.write` produces for payload `p`:
`struct.pack(">I", 4+len(data)) + data` (client.py lines 88-91). -/
def frameB (p : Bytes) : Bytes := pack32 (4 + p.length) ++ p

namespace EppClient

/-- Concatenation result of the batch phases: `batchsend` returns either
the integer `sent` (fire-and-forget) or a list of parsed responses padded
with `None`. -/
inductive BatchResult where
  | count (sent : Nat)
  | responses (out : List (Option EppResponse))
deriving DecidableEq, Repr

/-- Embedding of `EppClient.read` (client.py lines 69-84).  A single
`recv` call fetches the header and a single `recv` call fetches the
payload — the code has no retry loop.  A zero-byte header read closes the
connection and raises the no-size-header error; a zero-byte payload read
closes the connection and raises the no-data error carrying the expected
length.  A short (but non-empty) header makes `struct.unpack` raise
without closing; a short payload is returned as-is.  Reading on a closed
file descriptor raises the platform socket error (in Python the
`recv`/`read` call itself raises after `self._sock.close()`). -/
def read (s : ClientState) : Except (Err × ClientState) (Bytes × ClientState) :=
  if s.closed then .error (.socketError, s)
  else
    let (siz, in1) := recv 4 s.instream
    if siz = [] then .error (.noSizeHeader, { s with instream := in1, closed := true })
    else if siz.length ≠ 4 then .error (.structPackError, { s with instream := in1 })
    else if unpack32 siz < 4 then .error (.recvArgError, { s with instream := in1 })
    else
      let n := unpack32 siz - 4
      let (data, in2) := recv n in1
      if data = [] then .error (.noData n, { s with instream := in2, closed := true })
      else .ok (data, { s with instream := in2 })

/-- One underlying `sendall`/SSL `write` call: raises the platform socket
error when the raw handle was closed or when the injected transport
failure triggers; otherwise all bytes are handed to the stream as one
call. -/
def sendall (b : Bytes) (s : ClientState) : Except (Err × ClientState) ClientState :=
  if s.closed ∨ s.writesBeforeFail = some s.outstream.length then
    .error (.socketError, s)
  else .ok { s with outstream := s.outstream ++ [b] }

/-- Embedding of `EppClient.write` (client.py lines 88-91): one write call
carrying the 4-byte header followed by the payload. -/
def write (data : Bytes) (s : ClientState) : Except (Err × ClientState) ClientState :=
  sendall (frameB data) s

/-- Embedding of `EppClient.write_many` (client.py lines 94-104): builds
`struct.pack(">I", 4+len(doc)) + doc` for each document with NO rendering
step and joins the buffer with `''.join`.  In Python 2 `''.join` raises a
type error as soon as any element is not an actual byte string, before
anything is written; the documents are used as-is, not via `str(doc)`. -/
def write_many (docs : List Doc) (s : ClientState) : Except (Err × ClientState) ClientState :=
  if docs.all Doc.isStr then
    sendall ((docs.map (fun d => frameB d.str)).flatten) s
  else .error (.typeMismatch, s)

/-- Embedding of `EppClient.connect` (client.py lines 30-41).  The TCP and
TLS establishment is external I/O; the model keeps the fields the engine
branches on: a fresh live stream is installed (`sock := true`) and its raw
handle is open (`closed := false`).  The chunks the peer will deliver on
the new connection are the ones already recorded in `instream`. -/
def connect (s : ClientState) : ClientState := { s with sock := true, closed := false }

/-- Embedding of `EppClient.close` (client.py lines 199-200): closes the
retained raw socket handle `self._sock` and nothing else — in particular
`self.sock` is not cleared and no other attribute changes. -/
def close (s : ClientState) : ClientState := { s with closed := true }

/-- Embedding of `EppClient.send` (client.py lines 108-116): render the
document, write one frame, read one frame, parse the response.  The
`normalize_response` hook is external and side-effects only the response
object, so it does not appear in the transport state. -/
def send (fromXml : Bytes → EppResponse) (doc : Doc) (s : ClientState) :
    Except (Err × ClientState) (EppResponse × ClientState) :=
  match write (Doc.str doc) s with
  | .error e => .error e
  | .ok s1 =>
      match read s1 with
      | .error e => .error e
      | .ok (r, s2) => .ok (fromXml r, s2)

/-- Embedding of `EppClient.login` (client.py lines 51-62): when
`self.sock` is not set, connect and read one greeting frame (stored parsed
in `self.greeting`); then send the login command; raise `EppLoginError`
carrying the response when the response is unsuccessful and
`raise_on_fail` holds, and return the response otherwise. -/
def login (fromXml : Bytes → EppResponse) (cmd : Doc) (raiseOnFail : Bool) (s : ClientState) :
    Except (Err × ClientState) (EppResponse × ClientState) :=
  let pre : Except (Err × ClientState) ClientState :=
    if s.sock then .ok s
    else
      match read (connect s) with
      | .error e => .error e
      | .ok (g, s2) => .ok { s2 with greeting := some (fromXml g) }
  match pre with
  | .error e => .error e
  | .ok s1 =>
      match send fromXml cmd s1 with
      | .error e => .error e
      | .ok (r, s2) =>
          if !r.success && raiseOnFail then .error (.loginFailed r, s2)
          else .ok (r, s2)

/-- The non-pipelined send loop of `batchsend` (client.py lines 132-134):
write each document's frame, counting successes, stopping at the first
failure (whose error is recorded). -/
def sendLoop : List Doc → ClientState → Nat → Nat × ClientState × Option Err
  | [], s, sent => (sent, s, none)
  | d :: ds, s, sent =>
      match write (Doc.str d) s with
      | .ok s1 => sendLoop ds s1 (sent + 1)
      | .error (e, s1) => (sent, s1, some e)

/-- The receive loop of `batchsend` (client.py lines 143-153): read and
parse `sent` responses in order; on the first failure stop and pad the
result with `None` up to `sent` entries. -/
def recvLoop (fromXml : Bytes → EppResponse) :
    Nat → ClientState → List (Option EppResponse) → List (Option EppResponse) × ClientState
  | 0, s, acc => (acc, s)
  | k + 1, s, acc =>
      match read s with
      | .ok (r, s1) => recvLoop fromXml k s1 (acc ++ [some (fromXml r)])
      | .error (_, s1) => (acc ++ List.replicate (k + 1) none, s1)

/-- The tail of `batchsend` after the send phase (client.py lines
140-155): return the integer `sent` when responses are not wanted,
otherwise run the receive loop. -/
def batchRecvPhase (fromXml : Bytes → EppResponse) (readresponse : Bool) (sent : Nat)
    (s : ClientState) : BatchResult × ClientState :=
  if readresponse then
    let (out, s2) := recvLoop fromXml sent s []
    (.responses out, s2)
  else (.count sent, s)

/-- Embedding of `EppClient.batchsend` (client.py lines 119-155).  Send
phase: pipelined (one `write_many` call, `sent = len(docs)` on success,
`sent = 0` on failure) or sequential.  A send failure propagates when
`failfast` holds, otherwise the receive phase proceeds with the partial
`sent`. -/
def batchsend (fromXml : Bytes → EppResponse) (docs : List Doc)
    (readresponse failfast pipeline : Bool) (s : ClientState) :
    Except (Err × ClientState) (BatchResult × ClientState) :=
  let p1 : Nat × ClientState × Option Err :=
    if pipeline then
      match write_many docs s with
      | .ok s1 => (docs.length, s1, none)
      | .error (e, s1) => (0, s1, some e)
    else sendLoop docs s 0
  match p1 with
  | (sent, s1, some e) =>
      if failfast then .error (e, s1)
      else .ok (batchRecvPhase fromXml readresponse sent s1)
  | (sent, s1, none) => .ok (batchRecvPhase fromXml readresponse sent s1)

end EppClient

/-! ### Helper lemmas about the framing codec and the stream primitives -/

lemma pack32_length (n : Nat) : (pack32 n).length = 4 := rfl

lemma pack32_ne_nil (n : Nat) : pack32 n ≠ [] := by simp [pack32]

lemma unpack32_pack32 (n : Nat) (h : n < 2 ^ 32) : unpack32 (pack32 n) = n := by
  simp only [pack32, unpack32, List.foldl]
  omega

lemma recv_nil (n : Nat) : recv n [] = ([], []) := rfl

lemma recv_cons_pos (n : Nat) (c : Bytes) (cs : List Bytes) (hn : n ≠ 0) :
    recv n (c :: cs) = (c.take n, if c.drop n = [] then cs else c.drop n :: cs) := by
  simp [recv, hn]

lemma take4_frameB (p : Bytes) : (frameB p).take 4 = pack32 (4 + p.length) := by
  simp [frameB, pack32_length]

lemma drop4_frameB (p : Bytes) : (frameB p).drop 4 = p := by
  simp [frameB, pack32_length]

namespace EppClient

/-- Reading one well-formed frame at the head of the incoming stream
returns exactly its payload and consumes exactly the frame. -/
lemma read_frame_head (s : ClientState) (p : Bytes) (rest : List Bytes)
    (hc : s.closed = false) (hp : p ≠ []) (hl : 4 + p.length < 2 ^ 32)
    (hin : s.instream = frameB p :: rest) :
    read s = .ok (p, { s with instream := rest }) := by
  have h4 : recv 4 s.instream = (pack32 (4 + p.length), p :: rest) := by
    rw [hin, recv_cons_pos 4 _ _ (by decide), take4_frameB, drop4_frameB]
    simp [hp]
  have hu : unpack32 (pack32 (4 + p.length)) = 4 + p.length :=
    unpack32_pack32 _ hl
  have hplen : p.length ≠ 0 := by simpa using hp
  have hrecv2 : recv (4 + p.length - 4) (p :: rest) = (p, rest) := by
    have he : 4 + p.length - 4 = p.length := by omega
    rw [he, recv_cons_pos _ _ _ hplen]
    simp
  simp only [read, hc, h4, hu, hrecv2]
  simp [pack32_ne_nil, pack32_length, hp, hu, hrecv2]

/-- Reading on an exhausted incoming stream: zero bytes come back for the
header, the connection is closed, and the no-size-header error is raised. -/
lemma read_exhausted (s : ClientState) (hc : s.closed = false) (hin : s.instream = []) :
    read s = .error (.noSizeHeader, { s with closed := true }) := by
  have : ({ s with instream := [], closed := true } : ClientState)
      = { s with closed := true } := by
    cases s; simp_all
  simp only [read, hc, hin, recv_nil]
  simp [this]

/-- A successful underlying write appends exactly one call's bytes. -/
lemma sendall_ok (b : Bytes) (s : ClientState)
    (hc : s.closed = false) (hw : s.writesBeforeFail ≠ some s.outstream.length) :
    sendall b s = .ok { s with outstream := s.outstream ++ [b] } := by
  simp [sendall, hc, hw]

/-- A failing underlying write raises the socket error and leaves the whole
client state unchanged — in particular the connection is not closed. -/
lemma sendall_error (b : Bytes) (s : ClientState)
    (h : s.closed = true ∨ s.writesBeforeFail = some s.outstream.length) :
    sendall b s = .error (.socketError, s) := by
  rcases h with h | h <;> simp [sendall, h]

/-- A successful `write` appends exactly one frame. -/
lemma write_ok (d : Bytes) (s : ClientState)
    (hc : s.closed = false) (hw : s.writesBeforeFail ≠ some s.outstream.length) :
    write d s = .ok { s with outstream := s.outstream ++ [frameB d] } :=
  sendall_ok _ _ hc hw

/-- Whatever the outcome of `write`, a raised error leaves the state
exactly as it was. -/
lemma write_error_state (d : Bytes) (s s' : ClientState) (e : Err)
    (h : write d s = .error (e, s')) : s' = s := by
  by_cases hcond : s.closed = true ∨ s.writesBeforeFail = some s.outstream.length
  · rw [write, sendall_error _ _ hcond] at h
    injection h with h1
    injection h1 with h1 h2
    exact h2.symm
  · push_neg at hcond
    rw [write_ok d s (by simpa using hcond.1) hcond.2] at h
    exact absurd h (by simp)

/-- The sequential send loop with a transport failure injected `m` write
calls ahead: exactly the first `m` documents' frames are written, the loop
reports the socket error, and the rest of the state is untouched. -/
lemma sendLoop_failAt (docs : List Doc) (s : ClientState) (m sent0 : Nat)
    (hm : m < docs.length) (hc : s.closed = false)
    (hf : s.writesBeforeFail = some (s.outstream.length + m)) :
    sendLoop docs s sent0 =
      (sent0 + m,
       { s with outstream := s.outstream ++ (docs.take m).map (fun d => frameB d.str) },
       some .socketError) := by
  induction docs generalizing s m sent0 with
  | nil => simp at hm
  | cons d ds ih =>
      match m with
      | 0 =>
          have herr : write d.str s = .error (.socketError, s) :=
            sendall_error _ _ (Or.inr (by simpa using hf))
          simp [sendLoop, herr]
      | Nat.succ m' =>
          have hne : s.writesBeforeFail ≠ some s.outstream.length := by
            rw [hf]; intro hcontra
            injection hcontra with hcontra
            omega
          have hok := write_ok d.str s hc hne
          simp only [sendLoop, hok]
          have ihs := ih { s with outstream := s.outstream ++ [frameB d.str] } m' (sent0 + 1)
            (by simpa using Nat.lt_of_succ_lt_succ hm) (by simp [hc])
            (by simp [hf]
                omega)
          rw [ihs]
          simp [List.append_assoc, Nat.add_comm, Nat.add_assoc, Nat.add_left_comm]

/-- The sequential send loop when no failure triggers: every frame is
written in order and no error is reported. -/
lemma sendLoop_allOk (docs : List Doc) (s : ClientState) (sent0 : Nat)
    (hc : s.closed = false)
    (hf : ∀ k, s.writesBeforeFail = some k → s.outstream.length + docs.length ≤ k) :
    sendLoop docs s sent0 =
      (sent0 + docs.length,
       { s with outstream := s.outstream ++ docs.map (fun d => frameB d.str) },
       none) := by
  induction docs generalizing s sent0 with
  | nil => simp [sendLoop]
  | cons d ds ih =>
      have hne : s.writesBeforeFail ≠ some s.outstream.length := by
        intro hcontra
        have h2 := hf _ hcontra
        simp only [List.length_cons] at h2
        omega
      have hok := write_ok d.str s hc hne
      simp only [sendLoop, hok]
      have ihs := ih { s with outstream := s.outstream ++ [frameB d.str] } (sent0 + 1)
        (by simp [hc])
        (by intro k hk
            simp at hk
            have h2 := hf k hk
            simp only [List.length_cons] at h2
            simp
            omega)
      rw [ihs]
      simp [List.append_assoc, Nat.add_comm, Nat.add_assoc, Nat.add_left_comm]

/-- The receive loop over a stream that delivers exactly the frames of the
payloads `ps` (one chunk per frame) and then nothing: the first
`ps.length` iterations parse the payloads in order, and when more
responses are owed the next read hits the exhausted stream and the result
is padded with `none` up to the owed count. -/
lemma recvLoop_spec (fromXml : Bytes → EppResponse) (ps : List Bytes) (k : Nat)
    (acc : List (Option EppResponse)) (s : ClientState)
    (hc : s.closed = false) (hin : s.instream = ps.map frameB)
    (hgood : ∀ p ∈ ps, p ≠ [] ∧ 4 + p.length < 2 ^ 32)
    (hk : ps.length ≤ k) :
    ∃ s', recvLoop fromXml k s acc =
      (acc ++ ps.map (fun p => some (fromXml p)) ++ List.replicate (k - ps.length) none,
       s') := by
  induction ps generalizing k acc s with
  | nil =>
      match k with
      | 0 => exact ⟨s, by simp [recvLoop]⟩
      | Nat.succ k' =>
          refine ⟨{ s with closed := true }, ?_⟩
          have hread := read_exhausted s hc (by simpa using hin)
          simp [recvLoop, hread]
  | cons p ps' ih =>
      match k with
      | 0 => simp at hk
      | Nat.succ k' =>
          have hread := read_frame_head s p (ps'.map frameB) hc
            (hgood p (by simp)).1 (hgood p (by simp)).2 (by simpa using hin)
          have ihs := ih k' (acc ++ [some (fromXml p)]) { s with instream := ps'.map frameB }
            (by simp [hc]) (by simp) (fun q hq => hgood q (by simp [hq]))
            (by simpa using Nat.le_of_succ_le_succ hk)
          obtain ⟨s', hs'⟩ := ihs
          refine ⟨s', ?_⟩
          simp only [recvLoop, hread, hs']
          simp [List.append_assoc]

/-- Characterization of `write_many`: with only byte-string documents it
issues exactly one underlying write call whose bytes are the frames of all
the documents concatenated in order; with any non-string document the
string join raises before anything is written. -/
lemma write_many_ok (docs : List Doc) (s : ClientState)
    (hstr : docs.all Doc.isStr) (hc : s.closed = false)
    (hw : s.writesBeforeFail ≠ some s.outstream.length) :
    write_many docs s =
      .ok { s with outstream :=
              s.outstream ++ [(docs.map (fun d => frameB d.str)).flatten] } := by
  rw [write_many, if_pos hstr]
  exact sendall_ok _ _ hc hw

lemma write_many_typeError (docs : List Doc) (s : ClientState)
    (hstr : ¬ docs.all Doc.isStr) :
    write_many docs s = .error (.typeMismatch, s) := by
  rw [write_many, if_neg hstr]

/-- Outcomes of `write_many`: either one successful write call carrying
every frame, or an error that leaves the state untouched. -/
lemma write_many_cases (docs : List Doc) (s : ClientState) :
    (write_many docs s =
      .ok { s with outstream :=
              s.outstream ++ [(docs.map (fun d => frameB d.str)).flatten] }) ∨
    (∃ e, write_many docs s = .error (e, s)) := by
  by_cases hstr : docs.all Doc.isStr
  · by_cases hfail : s.closed = true ∨ s.writesBeforeFail = some s.outstream.length
    · right
      refine ⟨.socketError, ?_⟩
      rw [write_many, if_pos hstr]
      exact sendall_error _ _ hfail
    · left
      push_neg at hfail
      exact write_many_ok docs s hstr (by simpa using hfail.1) hfail.2
  · right
    exact ⟨.typeMismatch, write_many_typeError docs s hstr⟩

/-- A successful `write` can only be the one-frame append. -/
lemma write_ok_inv (d : Bytes) (s s1 : ClientState) (h : write d s = .ok s1) :
    s1 = { s with outstream := s.outstream ++ [frameB d] } := by
  by_cases hcond : s.closed = true ∨ s.writesBeforeFail = some s.outstream.length
  · rw [write, sendall_error _ _ hcond] at h
    cases h
  · push_neg at hcond
    rw [write_ok _ _ (by simpa using hcond.1) hcond.2] at h
    injection h with h
    exact h.symm

/-- Every run of the sequential send loop writes the frames of some prefix
of the documents, with no error only when the prefix is everything. -/
lemma sendLoop_cases (docs : List Doc) (s : ClientState) (sent0 : Nat) :
    ∃ k errOpt, k ≤ docs.length ∧ (errOpt = none → k = docs.length) ∧
      sendLoop docs s sent0 =
        (sent0 + k,
         { s with outstream := s.outstream ++ ((docs.take k).map (fun d => frameB d.str)) },
         errOpt) := by
  induction docs generalizing s sent0 with
  | nil => exact ⟨0, none, by simp [sendLoop]⟩
  | cons d ds ih =>
      rcases hw : write (Doc.str d) s with ⟨e, s1⟩ | s1
      · have hs1 : s1 = s := write_error_state _ _ _ _ hw
        subst hs1
        refine ⟨0, some e, by simp, by simp, ?_⟩
        simp [sendLoop, hw]
      · have hs1 := write_ok_inv _ _ _ hw
        subst hs1
        obtain ⟨k, errOpt, hk, hne, hrec⟩ :=
          ih { s with outstream := s.outstream ++ [frameB (Doc.str d)] } (sent0 + 1)
        refine ⟨k + 1, errOpt, by simpa using hk, fun h => by simpa using hne h, ?_⟩
        simp only [sendLoop, hw]
        rw [hrec]
        simp [List.append_assoc, Nat.add_comm, Nat.add_assoc, Nat.add_left_comm]

/-- Inversion on a failing `read`: which error kinds exist, and what each
does to the connection.  Only the two clean-close kinds close the raw
handle; a malformed short header or a bad header value leaves `closed`
untouched. -/
lemma read_error_cases (s s' : ClientState) (e : Err)
    (h : read s = .error (e, s')) :
    (e = .socketError ∧ s' = s) ∨
    (e = .noSizeHeader ∧ s'.closed = true) ∨
    (e = .structPackError ∧ s'.closed = s.closed) ∨
    (e = .recvArgError ∧ s'.closed = s.closed) ∨
    ((∃ n, e = .noData n) ∧ s'.closed = true) := by
  by_cases hc : s.closed = true
  · simp [read, hc] at h
    exact Or.inl ⟨h.1.symm, h.2.symm⟩
  · have hcf : s.closed = false := by simpa using hc
    rcases h4 : recv 4 s.instream with ⟨siz, in1⟩
    rcases hn : recv (unpack32 siz - 4) in1 with ⟨data, in2⟩
    simp [read, hcf, h4, hn] at h
    split_ifs at h
    · obtain ⟨he, hs⟩ := h
      simp [hcf]
    · obtain ⟨he, hs⟩ := h
      simp [hcf]
    · obtain ⟨he, hs⟩ := h
      simp [hcf]
    · obtain ⟨he, hs⟩ := h
      simp [hcf]

/-- Both clean-close read failures set the closed flag. -/
lemma read_cleanclose_closes (s s' : ClientState) :
    (read s = .error (.noSizeHeader, s') → s'.closed = true) ∧
    (∀ n, read s = .error (.noData n, s') → s'.closed = true) := by
  constructor
  · intro h
    rcases read_error_cases s s' _ h with ⟨h1, _⟩ | ⟨_, h2⟩ | ⟨h1, _⟩ | ⟨h1, _⟩ | ⟨_, h2⟩
    · cases h1
    · exact h2
    · cases h1
    · cases h1
    · exact h2
  · intro n h
    rcases read_error_cases s s' _ h with ⟨h1, _⟩ | ⟨h1, _⟩ | ⟨h1, _⟩ | ⟨h1, _⟩ | ⟨_, h2⟩
    · cases h1
    · cases h1
    · cases h1
    · cases h1
    · exact h2

/-- Reading a stream that delivered only the 4-byte header (announcing an
`n`-byte payload) and then closed: the payload read gets zero bytes, the
connection is closed, and the no-data error reports `n`. -/
lemma read_header_only (s : ClientState) (n : Nat)
    (hc : s.closed = false) (hn : n + 4 < 2 ^ 32)
    (hin : s.instream = [pack32 (n + 4)]) :
    read s = .error (.noData n, { s with instream := [], closed := true }) := by
  have h4 : recv 4 ([pack32 (n + 4)] : List Bytes) = (pack32 (n + 4), []) := by
    rw [recv_cons_pos _ _ _ (by decide),
      List.take_of_length_le (by simp [pack32_length]),
      List.drop_of_length_le (by simp [pack32_length])]
    simp
  have hu : unpack32 (pack32 (n + 4)) = n + 4 := unpack32_pack32 _ hn
  have hsub : n + 4 - 4 = n := by omega
  simp only [read, hc, hin, h4, hu, hsub, recv_nil]
  simp [pack32_ne_nil, pack32_length]

/-- A failing `read` never touches the client's stream attribute
`self.sock`: both internal closes only close the raw handle. -/
lemma read_sock_preserved (s : ClientState) :
    ∀ e s', read s = .error (e, s') → s'.sock = s.sock := by
  intro e s' h
  by_cases hc : s.closed = true
  · simp [read, hc] at h
    rw [← h.2]
  · have hcf : s.closed = false := by simpa using hc
    rcases h4 : recv 4 s.instream with ⟨siz, in1⟩
    rcases hn : recv (unpack32 siz - 4) in1 with ⟨data, in2⟩
    simp [read, hcf, h4, hn] at h
    split_ifs at h
    · obtain ⟨he, hs⟩ := h
      simp
    · obtain ⟨he, hs⟩ := h
      simp
    · obtain ⟨he, hs⟩ := h
      simp
    · obtain ⟨he, hs⟩ := h
      simp

end EppClient

/-! ### Shared concrete fixtures for witnesses and counterexamples -/

/-- A parser that accepts anything (concrete stand-in for the external
`EppResponse.from_xml`). -/
def parseOk : Bytes → EppResponse := fun b => ⟨b, true⟩

/-- A parser whose responses report failure. -/
def parseFail : Bytes → EppResponse := fun b => ⟨b, false⟩

/-- A freshly connected idle client: stream set, raw handle open, nothing
buffered either way. -/
def freshIdle : ClientState := ⟨[], [], none, true, false, none⟩

/-- A connected client whose very next write call fails. -/
def sWFail : ClientState := ⟨[], [], some 0, true, false, none⟩

/-- A connected client whose stream delivers one header announcing a
5-byte payload and then closes. -/
def sHdrOnly : ClientState := ⟨[pack32 9], [], none, true, false, none⟩

/-- A connected client whose second write call fails. -/
def sWFail1 : ClientState := ⟨[], [], some 1, true, false, none⟩

/-- A fresh client (stream attribute unset) whose peer will deliver a
greeting frame with payload `[7]` and a response frame with payload `[8]`. -/
def sGreet : ClientState := ⟨[frameB [7], frameB [8]], [], none, false, false, none⟩

/-! ### Claim theorems -/

/-- C1 (corrected): for every non-empty payload `p` whose frame fits the
4-byte length header, if the transport delivers the frame written by
`write_frame(p)` in one chunk (so each of the two single `recv` calls gets
its full requested count), then `read_frame` returns `p` unchanged and
consumes exactly the frame.  The reads do not loop, so this single-chunk
delivery assumption is needed, and the empty payload is excluded. -/
theorem c1_roundtrip_single_delivery (p : Bytes) (w s : ClientState)
    (hp : p ≠ []) (hl : 4 + p.length < 2 ^ 32)
    (hwc : w.closed = false) (hwf : w.writesBeforeFail ≠ some w.outstream.length)
    (hsc : s.closed = false) (hin : s.instream = [frameB p]) :
    EppClient.write p w = .ok { w with outstream := w.outstream ++ [frameB p] } ∧
    EppClient.read s = .ok (p, { s with instream := [] }) :=
  ⟨EppClient.write_ok p w hwc hwf, EppClient.read_frame_head s p [] hsc hp hl hin⟩

/-- Witness for C1 at the 1-byte payload `[7]`. -/
theorem c1_roundtrip_single_delivery_witness :
    EppClient.write [7] freshIdle =
      .ok { freshIdle with outstream := freshIdle.outstream ++ [frameB [7]] } ∧
    EppClient.read { freshIdle with instream := [frameB [7]] } =
      .ok ([7], { { freshIdle with instream := [frameB [7]] } with instream := [] }) :=
  c1_roundtrip_single_delivery [7] freshIdle { freshIdle with instream := [frameB [7]] }
    (by decide) (by decide) rfl (by decide) rfl rfl

/-- Counterexample to C1 as stated: the claim includes the empty payload
and fragmented delivery.  (1) `read_frame` over exactly the bytes of
`write_frame` of the empty payload raises the no-data error (the zero-byte
`recv(0)` is mistaken for a closed stream) instead of returning the
payload.  (2) When the frame of `[1..8]` arrives split after 6 bytes, the
payload read returns only the 2 bytes of the first chunk — the code does
not loop to obtain the exact count — so `read_frame` returns `[1, 2]`,
not the original payload. -/
theorem c1_roundtrip_counterexample :
    EppClient.read { instream := [frameB []], outstream := [], writesBeforeFail := none,
                     sock := true, closed := false, greeting := none } =
      .error (.noData 0, ⟨[], [], none, true, true, none⟩) ∧
    EppClient.read { instream := [(frameB [1,2,3,4,5,6,7,8]).take 6,
                                  (frameB [1,2,3,4,5,6,7,8]).drop 6],
                     outstream := [], writesBeforeFail := none,
                     sock := true, closed := false, greeting := none } =
      .ok ([1,2], ⟨[[3,4,5,6,7,8]], [], none, true, false, none⟩) ∧
    ([1,2] : Bytes) ≠ [1,2,3,4,5,6,7,8] :=
  ⟨rfl, rfl, by decide⟩

/-- C2 (corrected): a failing frame write leaves the client state exactly
as it was — in particular the Connection is NOT closed — while the two
clean-close read failures do close the Connection. -/
theorem c2_error_close_discipline (d : Bytes) (s s' : ClientState) :
    (∀ e, EppClient.write d s = .error (e, s') → s' = s) ∧
    (EppClient.read s = .error (.noSizeHeader, s') → s'.closed = true) ∧
    (∀ n, EppClient.read s = .error (.noData n, s') → s'.closed = true) :=
  ⟨fun e h => EppClient.write_error_state d s s' e h,
   (EppClient.read_cleanclose_closes s s').1,
   (EppClient.read_cleanclose_closes s s').2⟩

/-- Witness for C2: a failed write at `sWFail` leaves the state unchanged,
and the two clean-close read failures at concrete states close. -/
theorem c2_error_close_discipline_witness :
    sWFail = sWFail ∧
    (⟨[], [], none, true, true, none⟩ : ClientState).closed = true ∧
    (⟨[], [], none, true, true, none⟩ : ClientState).closed = true :=
  ⟨(c2_error_close_discipline [1] sWFail sWFail).1 .socketError rfl,
   (c2_error_close_discipline [] freshIdle ⟨[], [], none, true, true, none⟩).2.1 rfl,
   (c2_error_close_discipline [] sHdrOnly ⟨[], [], none, true, true, none⟩).2.2 5 rfl⟩

/-- Counterexample to C2 as stated: an I/O error during a frame write
(`sWFail`, whose next underlying write call raises) propagates while the
Connection remains open — `closed` is still `false` afterwards, an
open-but-errored state the claim says cannot exist. -/
theorem c2_counterexample :
    EppClient.write [1] sWFail = .error (.socketError, sWFail) ∧
    sWFail.closed = false :=
  ⟨rfl, rfl⟩

/-- C5 (confirmed): a header read that yields zero bytes closes the
Connection and fails with the no-size-header kind; a successful header
read followed by a zero-byte payload read closes the Connection and fails
with the no-data kind carrying the expected payload length; and every
occurrence of either kind is accompanied by the closed Connection. -/
theorem c5_clean_close_kinds (s : ClientState) (n : Nat)
    (hc : s.closed = false) (hn : n + 4 < 2 ^ 32) :
    (s.instream = [] →
      EppClient.read s = .error (.noSizeHeader, { s with closed := true })) ∧
    (s.instream = [pack32 (n + 4)] →
      EppClient.read s = .error (.noData n, { s with instream := [], closed := true })) ∧
    (∀ s', EppClient.read s = .error (.noSizeHeader, s') → s'.closed = true) ∧
    (∀ s' m, EppClient.read s = .error (.noData m, s') → s'.closed = true) :=
  ⟨fun hin => EppClient.read_exhausted s hc hin,
   fun hin => EppClient.read_header_only s n hc hn hin,
   fun s' => (EppClient.read_cleanclose_closes s s').1,
   fun s' => (EppClient.read_cleanclose_closes s s').2⟩

/-- Witness for C5 at two concrete streams: one closed before any byte,
one closed right after a header announcing 5 payload bytes. -/
theorem c5_clean_close_kinds_witness :
    EppClient.read freshIdle = .error (.noSizeHeader, { freshIdle with closed := true }) ∧
    EppClient.read sHdrOnly =
      .error (.noData 5, { sHdrOnly with instream := [], closed := true }) :=
  ⟨(c5_clean_close_kinds freshIdle 0 rfl (by decide)).1 rfl,
   (c5_clean_close_kinds sHdrOnly 5 rfl (by decide)).2.1 rfl⟩

/-- C3 (code bug): the pipelined send phase of `batchsend` does NOT render
documents before framing them — unlike the non-pipelined path, which
writes `str(doc)` — it hands the raw documents to `write_many`, whose
string join raises a type error on any document object before anything is
written.  Evaluated at a one-document batch: the pipelined call over the
document object raises and writes nothing, while the non-pipelined call
over the same document renders and writes its frame, and `write_many`
itself succeeds only on an already-rendered byte string. -/
theorem c3_pipeline_skips_rendering :
    EppClient.batchsend parseOk [Doc.obj [65]] false true true freshIdle =
      .error (.typeMismatch, freshIdle) ∧
    EppClient.batchsend parseOk [Doc.obj [65]] false true false freshIdle =
      .ok (.count 1, { freshIdle with outstream := [frameB [65]] }) ∧
    EppClient.write_many [Doc.bytes [65]] freshIdle =
      .ok { freshIdle with outstream := [frameB [65]] } :=
  ⟨rfl, rfl, rfl⟩

/-- C6 (confirmed): `batchsend` with `pipeline=true` over `N` byte-string
documents issues exactly one underlying write call — `outstream` gains one
entry — whose bytes are the `N` frames concatenated in order, and records
`sent = N` on success (observed through the fire-and-forget return). -/
theorem c6_pipeline_single_write (fromXml : Bytes → EppResponse) (bs : List Bytes)
    (ff : Bool) (s : ClientState)
    (hc : s.closed = false) (hw : s.writesBeforeFail ≠ some s.outstream.length) :
    EppClient.batchsend fromXml (bs.map Doc.bytes) false ff true s =
      .ok (.count bs.length,
           { s with outstream := s.outstream ++ [(bs.map frameB).flatten] }) := by
  have hstr : (bs.map Doc.bytes).all Doc.isStr := by
    simp [List.all_eq_true, Doc.isStr]
  have hwm := EppClient.write_many_ok (bs.map Doc.bytes) s hstr hc hw
  have hmap : ((bs.map Doc.bytes).map (fun d => frameB d.str)) = bs.map frameB := by
    simp [List.map_map, Function.comp_def, Doc.str]
  rw [hmap] at hwm
  simp [EppClient.batchsend, hwm, EppClient.batchRecvPhase]

/-- Witness for C6 over the two payloads `[1]` and `[2]`. -/
theorem c6_pipeline_single_write_witness :
    EppClient.batchsend parseOk (([[1], [2]] : List Bytes).map Doc.bytes) false true true
        freshIdle =
      .ok (.count ([[1], [2]] : List Bytes).length,
           { freshIdle with
             outstream := freshIdle.outstream ++
               [(([[1], [2]] : List Bytes).map frameB).flatten] }) :=
  c6_pipeline_single_write parseOk [[1], [2]] true freshIdle rfl (by decide)

/-- C9 (confirmed): non-pipelined `batchsend` of three documents with
`fail_fast=true`, where the write of the second document raises: the call
raises the write failure immediately, exactly one frame (the first
document's) was written — so `sent = 1` — and no read was attempted: the
incoming stream and the closed flag of the propagated state are untouched. -/
theorem c9_failfast_write_abort (fromXml : Bytes → EppResponse) (a b c : Doc)
    (rr : Bool) (s : ClientState)
    (hc : s.closed = false) (hf : s.writesBeforeFail = some (s.outstream.length + 1)) :
    EppClient.batchsend fromXml [a, b, c] rr true false s =
      .error (.socketError, { s with outstream := s.outstream ++ [frameB a.str] }) := by
  have hrec := EppClient.sendLoop_failAt [a, b, c] s 1 0 (by simp) hc hf
  simp [EppClient.batchsend, hrec]

/-- C4 (confirmed): non-pipelined `batchsend` with `fail_fast=false` keeps
positional correspondence under partial failure.  With the transport
failing on the `K`-th write call (`K ≤ N`): `sent = K - 1` (witnessed by
the fire-and-forget return and by the `K - 1` frames written), and when
the peer delivers only `R < sent` response frames before closing, the
returned list has length exactly `sent`, its first `R` entries are the
parsed responses in request order, and the remaining `sent - R` entries
are the `None` sentinel. -/
theorem c4_partial_failure_alignment (fromXml : Bytes → EppResponse) (docs : List Doc)
    (K : Nat) (ps : List Bytes) (s : ClientState)
    (hK1 : 1 ≤ K) (hK2 : K ≤ docs.length)
    (hc : s.closed = false)
    (hf : s.writesBeforeFail = some (s.outstream.length + (K - 1)))
    (hR : ps.length < K - 1)
    (hgood : ∀ p ∈ ps, p ≠ [] ∧ 4 + p.length < 2 ^ 32)
    (hin : s.instream = ps.map frameB) :
    (∃ s', EppClient.batchsend fromXml docs true false false s =
        .ok (.responses
               (ps.map (fun p => some (fromXml p)) ++
                List.replicate (K - 1 - ps.length) none),
             s')) ∧
    (ps.map (fun p => some (fromXml p)) ++
       List.replicate (K - 1 - ps.length) none).length = K - 1 ∧
    EppClient.batchsend fromXml docs false false false s =
      .ok (.count (K - 1),
           { s with outstream :=
               s.outstream ++ ((docs.take (K - 1)).map (fun d => frameB d.str)) }) := by
  have hm : K - 1 < docs.length := by omega
  have hrec := EppClient.sendLoop_failAt docs s (K - 1) 0 hm hc hf
  have hs1c : ({ s with outstream :=
      s.outstream ++ ((docs.take (K - 1)).map (fun d => frameB d.str)) } : ClientState).closed
        = false := by simp [hc]
  have hs1in : ({ s with outstream :=
      s.outstream ++ ((docs.take (K - 1)).map (fun d => frameB d.str)) } : ClientState).instream
        = ps.map frameB := by simp [hin]
  obtain ⟨s', hs'⟩ := EppClient.recvLoop_spec fromXml ps (K - 1) [] _ hs1c hs1in hgood
    (by omega)
  refine ⟨⟨s', ?_⟩, ?_, ?_⟩
  · simp only [List.map_take] at hs'
    simp [EppClient.batchsend, hrec, EppClient.batchRecvPhase, hs']
  · simp
    omega
  · simp [EppClient.batchsend, hrec, EppClient.batchRecvPhase]

/-- Witness for C4: three documents, the transport fails on the second
write call (`K = 2`), the peer delivers no response frame (`R = 0`): the
result is one slot, the `None` sentinel, and fire-and-forget reports
`sent = 1`. -/
theorem c4_partial_failure_alignment_witness :
    (∃ s', EppClient.batchsend parseOk [Doc.bytes [1], Doc.bytes [2], Doc.bytes [3]]
        true false false sWFail1 =
        .ok (.responses
               (([] : List Bytes).map (fun p => some (parseOk p)) ++
                List.replicate (2 - 1 - ([] : List Bytes).length) none),
             s')) ∧
    (([] : List Bytes).map (fun p => some (parseOk p)) ++
       List.replicate (2 - 1 - ([] : List Bytes).length) none).length = 2 - 1 ∧
    EppClient.batchsend parseOk [Doc.bytes [1], Doc.bytes [2], Doc.bytes [3]]
        false false false sWFail1 =
      .ok (.count (2 - 1),
           { sWFail1 with outstream :=
               sWFail1.outstream ++
                 (([Doc.bytes [1], Doc.bytes [2], Doc.bytes [3]].take (2 - 1)).map
                   (fun d => frameB d.str)) }) :=
  c4_partial_failure_alignment parseOk [Doc.bytes [1], Doc.bytes [2], Doc.bytes [3]]
    2 [] sWFail1 (by decide) (by decide) rfl rfl (by decide) (by simp) rfl

/-- C8 (confirmed): `batchsend` with `read_response=false` never reads —
the incoming stream and the closed flag are untouched in every outcome —
and whenever it returns a value, that value is exactly the integer count
of the frames successfully written: the frames of the first `k` documents
in the non-pipelined mode, and either all `N` frames in one write call or
zero frames in the pipelined mode.  An error outcome exists only with
`fail_fast=true`. -/
theorem c8_fire_and_forget (fromXml : Bytes → EppResponse) (docs : List Doc)
    (ff pl : Bool) (s : ClientState) :
    ∃ (k : Nat) (s1 : ClientState),
      s1.instream = s.instream ∧ s1.closed = s.closed ∧
      (pl = false →
        s1.outstream = s.outstream ++ ((docs.take k).map (fun d => frameB d.str))) ∧
      (pl = true →
        (k = docs.length ∧
         s1.outstream = s.outstream ++ [(docs.map (fun d => frameB d.str)).flatten]) ∨
        (k = 0 ∧ s1.outstream = s.outstream)) ∧
      (EppClient.batchsend fromXml docs false ff pl s = .ok (.count k, s1) ∨
       (ff = true ∧
        ∃ e, EppClient.batchsend fromXml docs false ff pl s = .error (e, s1))) := by
  cases pl
  · obtain ⟨k, errOpt, hk, hne, hrec⟩ := EppClient.sendLoop_cases docs s 0
    refine ⟨k,
      { s with outstream := s.outstream ++ ((docs.take k).map (fun d => frameB d.str)) },
      rfl, rfl, fun _ => rfl, fun h => Bool.noConfusion h, ?_⟩
    rcases errOpt with _ | e0
    · left
      simp [EppClient.batchsend, hrec, EppClient.batchRecvPhase]
    · cases ff
      · left
        simp [EppClient.batchsend, hrec, EppClient.batchRecvPhase]
      · right
        refine ⟨rfl, e0, ?_⟩
        simp [EppClient.batchsend, hrec]
  · rcases EppClient.write_many_cases docs s with hwm | ⟨e0, hwm⟩
    · refine ⟨docs.length,
        { s with outstream := s.outstream ++ [(docs.map (fun d => frameB d.str)).flatten] },
        rfl, rfl, fun h => Bool.noConfusion h, fun _ => Or.inl ⟨rfl, rfl⟩, ?_⟩
      left
      simp [EppClient.batchsend, hwm, EppClient.batchRecvPhase]
    · refine ⟨0, s, rfl, rfl, fun h => Bool.noConfusion h, fun _ => Or.inr ⟨rfl, rfl⟩, ?_⟩
      cases ff
      · left
        simp [EppClient.batchsend, hwm, EppClient.batchRecvPhase]
      · right
        refine ⟨rfl, e0, ?_⟩
        simp [EppClient.batchsend, hwm]

/-- Witness for C9 at three concrete one-byte documents with the
transport failing on the second write call. -/
theorem c9_failfast_write_abort_witness :
    EppClient.batchsend parseOk [Doc.bytes [1], Doc.bytes [2], Doc.bytes [3]] true true false
        sWFail1 =
      .error (.socketError,
              { sWFail1 with outstream := sWFail1.outstream ++ [frameB (Doc.str (Doc.bytes [1]))] }) :=
  c9_failfast_write_abort parseOk (Doc.bytes [1]) (Doc.bytes [2]) (Doc.bytes [3]) true
    sWFail1 rfl rfl

/-- C7 (confirmed): `login` on a fresh client (stream attribute unset)
connects, reads exactly one greeting frame (the first frame the peer
delivers, stored parsed in `greeting`), then sends the login document —
one frame written — and reads the second frame as the login response.  It
raises the login failure carrying the parsed response exactly when the
response's success indicator is false and `raise_on_fail` holds, and
otherwise returns the response (successful or not) without raising. -/
theorem c7_login_greeting_and_error (fromXml : Bytes → EppResponse) (cmd : Doc)
    (rof : Bool) (gp rp : Bytes) (s : ClientState)
    (hsock : s.sock = false) (hwf : s.writesBeforeFail = none)
    (hgp : gp ≠ []) (hgl : 4 + gp.length < 2 ^ 32)
    (hrp : rp ≠ []) (hrl : 4 + rp.length < 2 ^ 32)
    (hin : s.instream = [frameB gp, frameB rp]) :
    ((fromXml rp).success = false ∧ rof = true →
      EppClient.login fromXml cmd rof s =
        .error (.loginFailed (fromXml rp),
          { s with sock := true, closed := false, instream := [],
                   outstream := s.outstream ++ [frameB cmd.str],
                   greeting := some (fromXml gp) })) ∧
    ((fromXml rp).success = true ∨ rof = false →
      EppClient.login fromXml cmd rof s =
        .ok (fromXml rp,
          { s with sock := true, closed := false, instream := [],
                   outstream := s.outstream ++ [frameB cmd.str],
                   greeting := some (fromXml gp) })) := by
  obtain ⟨ins, outs, wbf, sk, cl, gr⟩ := s
  dsimp only at hsock hwf hin
  subst hsock
  subst hwf
  subst hin
  have hr1 : EppClient.read ⟨[frameB gp, frameB rp], outs, none, true, false, gr⟩ =
      .ok (gp, ⟨[frameB rp], outs, none, true, false, gr⟩) := by
    have h := EppClient.read_frame_head ⟨[frameB gp, frameB rp], outs, none, true, false, gr⟩
      gp [frameB rp] rfl hgp hgl rfl
    simpa using h
  have hw1 : EppClient.write (Doc.str cmd)
      ⟨[frameB rp], outs, none, true, false, some (fromXml gp)⟩ =
      .ok ⟨[frameB rp], outs ++ [frameB (Doc.str cmd)], none, true, false,
           some (fromXml gp)⟩ := by
    have h := EppClient.write_ok (Doc.str cmd)
      ⟨[frameB rp], outs, none, true, false, some (fromXml gp)⟩ rfl (by simp)
    simpa using h
  have hr2 : EppClient.read
      ⟨[frameB rp], outs ++ [frameB (Doc.str cmd)], none, true, false, some (fromXml gp)⟩ =
      .ok (rp, ⟨[], outs ++ [frameB (Doc.str cmd)], none, true, false,
                some (fromXml gp)⟩) := by
    have h := EppClient.read_frame_head
      ⟨[frameB rp], outs ++ [frameB (Doc.str cmd)], none, true, false, some (fromXml gp)⟩
      rp [] rfl hrp hrl rfl
    simpa using h
  constructor
  · intro hcond
    simp [EppClient.login, EppClient.connect, EppClient.send, hr1, hw1, hr2,
      hcond.1, hcond.2]
  · intro hcond
    rcases hcond with hcond | hcond
    · simp [EppClient.login, EppClient.connect, EppClient.send, hr1, hw1, hr2, hcond]
    · simp [EppClient.login, EppClient.connect, EppClient.send, hr1, hw1, hr2, hcond]

/-- Witness for C7: a fresh client, a parser whose responses report
failure, and `raise_on_fail=true`: the login failure carries the response
parsed from the second delivered frame, and the greeting holds the first. -/
theorem c7_login_greeting_and_error_witness :
    EppClient.login parseFail (Doc.obj [9]) true sGreet =
      .error (.loginFailed (parseFail [8]),
        { sGreet with sock := true, closed := false, instream := [],
                      outstream := sGreet.outstream ++ [frameB (Doc.str (Doc.obj [9]))],
                      greeting := some (parseFail [7]) }) :=
  (c7_login_greeting_and_error parseFail (Doc.obj [9]) true [7] [8] sGreet rfl rfl
    (by decide) (by decide) (by decide) (by decide) rfl).1 ⟨rfl, rfl⟩

/-- C10 (confirmed): `close` closes only the retained raw socket handle
and never clears the stream attribute `sock` — nor does the close
performed inside a failing `read` — so `login` called after `close` on a
client whose stream attribute is set skips the connect-and-greeting
branch entirely and attempts the exchange over the already-closed stream:
the login write raises the platform socket error with the state exactly as
`close` left it (nothing reconnected, nothing read). -/
theorem c10_close_keeps_sock (fromXml : Bytes → EppResponse) (cmd : Doc) (rof : Bool)
    (s : ClientState) (hsock : s.sock = true) :
    (EppClient.close s).sock = true ∧
    (∀ e s', EppClient.read s = .error (e, s') → s'.sock = s.sock) ∧
    EppClient.login fromXml cmd rof (EppClient.close s) =
      .error (.socketError, EppClient.close s) := by
  have h1 : (EppClient.close s).sock = true := by simp [EppClient.close, hsock]
  refine ⟨h1, EppClient.read_sock_preserved s, ?_⟩
  have hw : EppClient.write (Doc.str cmd) (EppClient.close s) =
      .error (.socketError, EppClient.close s) :=
    EppClient.sendall_error _ _ (Or.inl (by simp [EppClient.close]))
  simp only [EppClient.login, h1, if_true, EppClient.send, hw]

/-- Witness for C10 at a freshly connected then closed client. -/
theorem c10_close_keeps_sock_witness :
    (EppClient.close freshIdle).sock = true ∧
    (⟨[], [], none, true, true, none⟩ : ClientState).sock = freshIdle.sock ∧
    EppClient.login parseOk (Doc.obj [9]) true (EppClient.close freshIdle) =
      .error (.socketError, EppClient.close freshIdle) := by
  have h := c10_close_keeps_sock parseOk (Doc.obj [9]) true freshIdle rfl
  exact ⟨h.1, h.2.1 .noSizeHeader ⟨[], [], none, true, true, none⟩ rfl, h.2.2⟩

end Eppy
